import Mathlib

/-!
Shallow embedding of the Ad-Server event-ingestion and statistics pipeline
(`controller/ad_entrypoints.py`), with theorems checking the specification's
claims about it.

Conventions of the embedding:
* Python floats are modelled as `ℚ`; `round(x, 2)` is `round2`.
* Python `str.strip()` / `str.lower()` are `pyStrip` / `pyLower`, written
  over `List Char` so the kernel can evaluate them; MongoDB's string
  comparison is the lexicographic `strLe`.
* JSON field presence is an `Option`; a JSON value that may fail `float()`
  conversion is a `PyNum`.
* MongoDB collections are lists of documents; `update_one` updates the
  first matching document (`updateFirstBy`); `$inc`-with-upsert and
  `$setOnInsert` are modelled explicitly.
* Python truthiness of an optional string (`if budget:`) is `pyTruthy`:
  `None` and `""` are falsy.
-/

namespace AdServer

/-- Whitespace for the purposes of Python `str.strip()`. -/
def isSpaceChar (c : Char) : Bool :=
  c == ' ' || c == '\t' || c == '\n' || c == '\r'

/-- Python `s.strip()`: drop whitespace from both ends. -/
def pyStrip (s : String) : String :=
  ⟨((s.data.dropWhile isSpaceChar).reverse.dropWhile isSpaceChar).reverse⟩

/-- Python `s.lower()`. -/
def pyLower (s : String) : String :=
  ⟨s.data.map Char.toLower⟩

/-- Lexicographic comparison of character lists. -/
def charListLe : List Char → List Char → Bool
  | [], _ => true
  | _ :: _, [] => false
  | a :: as, b :: bs =>
      if a < b then true else if b < a then false else charListLe as bs

/-- Lexicographic string `≤`, the order MongoDB uses to compare the
`YYYY-MM-DD` date strings. -/
def strLe (a b : String) : Bool := charListLe a.data b.data

/-- Truthiness of an optional Python string: `None` and `""` are falsy. -/
def pyTruthy : Option String → Bool
  | none => false
  | some s => !(s == "")

/-- Python `round(x, 2)` modelled on rationals: round to the nearest
hundredth (half up). -/
def round2 (q : ℚ) : ℚ := (⌊q * 100 + 1/2⌋ : ℚ) / 100

/-- Raw aggregation totals handed to `calculate_ad_stats`
(the `$group` output, or the all-zero default). -/
structure StatsTotals where
  views : Nat
  clicks : Nat
  skips : Nat
  exits : Nat
  watchDurationSum : ℚ
  deriving DecidableEq, Repr

/-- The statistics dictionary built by `calculate_ad_stats`;
`conversionRate` is present only when the budget argument is truthy. -/
structure AdStats where
  views : Nat
  clicks : Nat
  skips : Nat
  avgWatchDuration : ℚ
  clickThroughRate : ℚ
  conversionRate : Option ℚ
  deriving DecidableEq, Repr

/-- Source `BUDGET_LEVELS.get(budget_level, 1)` where
`budget_level = budget.strip().lower()`. -/
def budgetWeight (b : String) : Nat :=
  let lvl := pyLower (pyStrip b)
  if lvl = "low" then 1
  else if lvl = "medium" then 2
  else if lvl = "high" then 3
  else 1

/-- Function `calculate_ad_stats(stats_data, budget=None)` from
`controller/ad_entrypoints.py`. -/
def calculate_ad_stats (d : StatsTotals) (budget : Option String) : AdStats :=
  let views := d.views
  let clicks := d.clicks
  let avg_watch : ℚ := if views = 0 then 0 else d.watchDurationSum / views
  let ctr : ℚ := if views = 0 then 0 else (clicks : ℚ) / views * 100
  let conversionRate : Option ℚ :=
    if pyTruthy budget then
      some (round2 (if views = 0 then 0
                    else (clicks : ℚ) / (budgetWeight (budget.getD "")) * 100))
    else none
  { views := views
    clicks := clicks
    skips := d.skips
    avgWatchDuration := round2 avg_watch
    clickThroughRate := round2 ctr
    conversionRate := conversionRate }

/-- One document of the `daily_ad_stats` collection.  The write path stores
`performerId`, `date`, the per-event-type `counts` sub-document, a running
`watchDurationSum`, and, on first insert only (`$setOnInsert`), `adId` and
`createdAt`. -/
structure DailyStatsDoc where
  performerId : String
  date : String
  adId : String
  countView : Nat
  countClick : Nat
  countSkip : Nat
  countExit : Nat
  watchDurationSum : ℚ
  createdAt : String
  deriving DecidableEq, Repr

/-- The `$match` document the stats read paths build: optional exact
`adId` / `performerId` fields plus an optional `date` condition holding the
optional `$gte` and `$lte` bounds. -/
structure MongoMatch where
  adId : Option String
  performerId : Option String
  dateCond : Option (Option String × Option String)
  deriving DecidableEq, Repr

/-- Function `apply_date_filter(match_dict, args)`: if either query parameter is
truthy, add a `date` condition with `$gte` for a truthy `from` and `$lte`
for a truthy `to` (Python treats `None` and `""` as absent). -/
def apply_date_filter (m : MongoMatch) (dateFrom dateTo : Option String) :
    MongoMatch :=
  if pyTruthy dateFrom || pyTruthy dateTo then
    { m with
        dateCond := some
          ((if pyTruthy dateFrom then dateFrom else none),
           (if pyTruthy dateTo then dateTo else none)) }
  else m

/-- MongoDB `$match` semantics on one `daily_ad_stats` document: exact
equality on the present key fields, and the date condition as inclusive
lexicographic string comparisons. -/
def docMatches (m : MongoMatch) (d : DailyStatsDoc) : Bool :=
  (match m.adId with
   | none => true
   | some a => d.adId == a) &&
  (match m.performerId with
   | none => true
   | some p => d.performerId == p) &&
  (match m.dateCond with
   | none => true
   | some (g, l) =>
       (match g with
        | none => true
        | some s => strLe s d.date) &&
       (match l with
        | none => true
        | some s => strLe d.date s))

/-- The `$group`/`$sum` stage of `build_stats_pipeline`, folded over the
matched documents (no matched document contributes zero). -/
def sumTotals (rows : List DailyStatsDoc) : StatsTotals :=
  rows.foldl
    (fun acc d =>
      { views := acc.views + d.countView
        clicks := acc.clicks + d.countClick
        skips := acc.skips + d.countSkip
        exits := acc.exits + d.countExit
        watchDurationSum := acc.watchDurationSum + d.watchDurationSum })
    ⟨0, 0, 0, 0, 0⟩

/-- Spec-side date-range predicate: the date lies in the inclusive range
`[from, to]`, a missing (absent or blank) bound leaving that side
unbounded. -/
def dateInRange (dateFrom dateTo : Option String) (date : String) : Bool :=
  (match dateFrom with
   | none => true
   | some s => s == "" || strLe s date) &&
  (match dateTo with
   | none => true
   | some s => s == "" || strLe date s)

/-- The `adDetails` sub-document of an ad. -/
structure AdDetails where
  videoUrl : String
  targetUrl : String
  budget : String
  skipTime : ℚ
  exitTime : ℚ
  deriving DecidableEq, Repr

/-- One document of the `ads` collection (`performerId` is optional because
`send_ad_event` guards against an ad with no performer reference). -/
structure AdDoc where
  id : String
  name : String
  performerId : Option String
  adDetails : AdDetails
  createdAt : String
  updatedAt : String
  deriving DecidableEq, Repr

/-- One document of the `performers` collection. -/
structure PerformerDoc where
  id : String
  name : String
  email : String
  ads : List String
  deriving DecidableEq, Repr

/-- One raw event appended to the day's `events` array. -/
structure EventDoc where
  adId : String
  performerId : String
  packageName : String
  timestamp : String
  eventType : String
  watchDuration : ℚ
  createdAt : String
  deriving DecidableEq, Repr

/-- One document of the `events_by_day` collection. -/
structure EventsDayDoc where
  date : String
  events : List EventDoc
  createdAt : String
  deriving DecidableEq, Repr

/-- The store state the embedded entrypoints read and write. -/
structure ServerState where
  ads : List AdDoc
  performers : List PerformerDoc
  eventsByDay : List EventsDayDoc
  dailyStats : List DailyStatsDoc
  deriving DecidableEq, Repr

/-- Outcome of Python `float(x)` on a JSON value: a number, or a
`ValueError`/`TypeError`. -/
inductive PyNum where
  | num (q : ℚ)
  | nonNumeric
  deriving DecidableEq, Repr

/-- The `eventDetails` object of a `POST /ad_event` body; `Option` marks
field presence. -/
structure EventDetailsPayload where
  packageName : Option String
  eventType : Option String
  watchDuration : Option PyNum
  deriving DecidableEq, Repr

/-- A `POST /ad_event` body. -/
structure EventPayload where
  adId : Option String
  timestamp : Option String
  eventDetails : Option EventDetailsPayload
  deriving DecidableEq, Repr

/-- The normalized event data that survives all of `send_ad_event`'s
validation. -/
structure ValidatedEvent where
  adId : String
  timestamp : String
  packageName : String
  eventType : String
  watchDuration : ℚ
  deriving DecidableEq, Repr

/-- The four admissible event types (`VALID_TYPES`), checked on the
already-normalized string. -/
def validEventTypes (e : String) : Bool :=
  e == "view" || e == "click" || e == "skip" || e == "exit"

/-- The validation sequence of `send_ad_event`, in source order: top-level
field presence, `adId` non-blank, `eventDetails` field presence, non-empty
`packageName` / `eventType` / `timestamp`, membership of the normalized
event type in `VALID_TYPES`, then `float(watchDuration)` and its
non-negativity. -/
def validateEvent (p : EventPayload) : Except String ValidatedEvent :=
  match p.adId, p.timestamp, p.eventDetails with
  | some adId, some ts, some ed =>
    if pyStrip adId == "" then .error "Invalid adId format"
    else
      match ed.packageName, ed.eventType, ed.watchDuration with
      | some pn0, some et0, some wd0 =>
        let pn := pyStrip pn0
        let et := pyLower (pyStrip et0)
        if pn == "" then .error "Invalid or empty field: packageName"
        else if et == "" then .error "Invalid or empty field: eventType"
        else if ts == "" then .error "Invalid or empty field: timestamp"
        else if !(validEventTypes et) then .error "Invalid eventType"
        else
          match wd0 with
          | .nonNumeric => .error "Invalid watchDuration format"
          | .num q =>
            if q < 0 then .error "watchDuration must be non-negative"
            else .ok ⟨adId, ts, pn, et, q⟩
      | _, _, _ => .error "Missing eventDetails fields"
  | _, _, _ => .error "Missing adId, timestamp or eventDetails"

/-- HTTP-level outcome of `POST /ad_event`. -/
inductive IngestResult where
  | Created
  | BadRequest (msg : String)
  | NotFound
  | ServerError (msg : String)
  deriving DecidableEq, Repr

/-- Lookup `ads_collection.find_one({'_id': ad_id})`. -/
def find_one_ad (ads : List AdDoc) (id : String) : Option AdDoc :=
  ads.find? (fun a => a.id == id)

/-- MongoDB `update_one`: rewrite the first document satisfying `p` with
`f`; `none` when no document matches. -/
def updateFirstBy {α : Type} (p : α → Bool) (f : α → α) :
    List α → Option (List α)
  | [] => none
  | a :: as =>
      if p a then some (f a :: as)
      else (updateFirstBy p f as).map (fun l => a :: l)

/-- The `events_by_day` write: `update_one({"date": today}, {"$push":
{"events": ev}, "$setOnInsert": {"createdAt": now}}, upsert=True)`. -/
def pushEventByDay (log : List EventsDayDoc) (today : String) (ev : EventDoc)
    (now : String) : List EventsDayDoc :=
  match updateFirstBy (fun d => d.date == today)
      (fun d => { d with events := d.events ++ [ev] }) log with
  | some l => l
  | none => log ++ [⟨today, [ev], now⟩]

/-- The daily-counter key the write path matches on: `performerId` and
`date` only. -/
def statsKeyMatch (pid date : String) (d : DailyStatsDoc) : Bool :=
  d.performerId == pid && d.date == date

/-- Update `$inc {"counts.<eventType>": 1}` on a counter document. -/
def incCounts (d : DailyStatsDoc) (et : String) : DailyStatsDoc :=
  if et == "view" then { d with countView := d.countView + 1 }
  else if et == "click" then { d with countClick := d.countClick + 1 }
  else if et == "skip" then { d with countSkip := d.countSkip + 1 }
  else if et == "exit" then { d with countExit := d.countExit + 1 }
  else d

/-- The full `$inc` document of the write path: bump the event type's count
and add the watch duration to the running sum. -/
def incStatsDoc (d : DailyStatsDoc) (et : String) (wd : ℚ) : DailyStatsDoc :=
  { incCounts d et with watchDurationSum := d.watchDurationSum + wd }

/-- The `daily_ad_stats` write: `update_one(stats_key, {"$inc": ...,
"$setOnInsert": {"adId": ad_id, "createdAt": now}}, upsert=True)`; on
insert the counter starts from zero. -/
def incDailyStats (stats : List DailyStatsDoc) (pid date adId et : String)
    (wd : ℚ) (now : String) : List DailyStatsDoc :=
  match updateFirstBy (statsKeyMatch pid date)
      (fun d => incStatsDoc d et wd) stats with
  | some l => l
  | none => stats ++ [incStatsDoc ⟨pid, date, adId, 0, 0, 0, 0, 0, now⟩ et wd]

/-- Entrypoint `send_ad_event` (`POST /ad_event`): validate, look up the ad, read its
`performerId`, then append the raw event to today's log and upsert-increment
the daily counter. -/
def send_ad_event (st : ServerState) (p : EventPayload) (today now : String) :
    IngestResult × ServerState :=
  match validateEvent p with
  | .error m => (.BadRequest m, st)
  | .ok v =>
    match find_one_ad st.ads v.adId with
    | none => (.NotFound, st)
    | some ad =>
      match ad.performerId with
      | none => (.ServerError "Ad has no performer assigned", st)
      | some pid =>
        if pid == "" then (.ServerError "Ad has no performer assigned", st)
        else
          let ev : EventDoc :=
            ⟨v.adId, pid, v.packageName, v.timestamp, v.eventType,
             v.watchDuration, now⟩
          let st1 :=
            { st with eventsByDay := pushEventByDay st.eventsByDay today ev now }
          (.Created,
           { st1 with
               dailyStats :=
                 incDailyStats st1.dailyStats pid today v.adId v.eventType
                   v.watchDuration now })

/-- The totals the ad-stats read path computes: `$match {adId: ad_id}` plus
the date filter, then the summing `$group` of `build_stats_pipeline`. -/
def ad_totals (stats : List DailyStatsDoc) (adId : String)
    (dateFrom dateTo : Option String) : StatsTotals :=
  sumTotals (stats.filter
    (fun d => docMatches
      (apply_date_filter ⟨some adId, none, none⟩ dateFrom dateTo) d))

/-- HTTP-level outcome of `GET /ads/{adId}/stats`. -/
inductive StatsResult where
  | NotFound
  | Ok (stats : AdStats)
  deriving DecidableEq, Repr

/-- Entrypoint `get_ad_statistics` (`GET /ads/{adId}/stats`): 404 when the ad does not
exist, otherwise derive stats from the aggregated totals and the ad's
budget (`ad_doc.get('adDetails', {}).get('budget', '')`). -/
def get_ad_statistics (st : ServerState) (adId : String)
    (dateFrom dateTo : Option String) : StatsResult :=
  match find_one_ad st.ads adId with
  | none => .NotFound
  | some ad =>
      .Ok (calculate_ad_stats (ad_totals st.dailyStats adId dateFrom dateTo)
            (some ad.adDetails.budget))

/-- Python `s.startswith("http")`, the URL check of `create_ad`. -/
def startsWithHttp (s : String) : Bool :=
  List.isPrefixOf "http".data s.data

/-- Membership of a normalized budget string in `{"low", "medium",
"high"}`. -/
def validBudget (b : String) : Bool :=
  b == "low" || b == "medium" || b == "high"

/-- The `adDetails` object of a `POST /ads` body; `Option` marks field
presence and `PyNum` the outcome of the `float()` conversion. -/
structure AdDetailsReq where
  videoUrl : Option String
  targetUrl : Option String
  budget : Option String
  skipTime : Option PyNum
  exitTime : Option PyNum
  deriving DecidableEq, Repr

/-- A `POST /ads` body. -/
structure AdCreateReq where
  adName : Option String
  performerEmail : Option String
  adDetails : Option AdDetailsReq
  deriving DecidableEq, Repr

/-- HTTP-level outcome of `POST /ads`. -/
inductive CreateAdResult where
  | Created (adId : String)
  | BadRequest (msg : String)
  | NotFound
  deriving DecidableEq, Repr

/-- Lookup `performers_collection.find_one({'email': email})`. -/
def find_performer_by_email (ps : List PerformerDoc) (email : String) :
    Option PerformerDoc :=
  ps.find? (fun pr => pr.email == email)

/-- MongoDB `$addToSet` on a string array. -/
def addToSet (l : List String) (x : String) : List String :=
  if l.contains x then l else l ++ [x]

/-- Entrypoint `create_ad` (`POST /ads`): required fields, performer lookup by
stripped email, `adDetails` field presence, normalization, numeric
`skipTime`/`exitTime`, the `startswith("http")` URL check and the budget
enum check, then the insert and the performer's `$addToSet`. -/
def create_ad (st : ServerState) (req : AdCreateReq) (newId now : String) :
    CreateAdResult × ServerState :=
  match req.adName, req.performerEmail, req.adDetails with
  | some adName, some pEmail, some det =>
    match find_performer_by_email st.performers (pyStrip pEmail) with
    | none => (.NotFound, st)
    | some performer =>
      match det.videoUrl, det.targetUrl, det.budget,
            det.skipTime, det.exitTime with
      | some vu, some tu, some bu, some skN, some exN =>
        let videoUrl := pyStrip vu
        let targetUrl := pyStrip tu
        let budget := pyLower (pyStrip bu)
        match skN, exN with
        | .num skipTime, .num exitTime =>
          if !(startsWithHttp videoUrl) || !(startsWithHttp targetUrl) then
            (.BadRequest "Invalid URLs", st)
          else if !(validBudget budget) then
            (.BadRequest "Invalid budget", st)
          else
            let ad : AdDoc :=
              ⟨newId, pyStrip adName, some performer.id,
               ⟨videoUrl, targetUrl, budget, skipTime, exitTime⟩, now, now⟩
            let performers' :=
              (updateFirstBy (fun pr => pr.id == performer.id)
                (fun pr => { pr with ads := addToSet pr.ads newId })
                st.performers).getD st.performers
            (.Created newId,
             { st with ads := st.ads ++ [ad], performers := performers' })
        | _, _ => (.BadRequest "Invalid skipTime or exitTime", st)
      | _, _, _, _, _ => (.BadRequest "Missing adDetails fields", st)
  | _, _, _ =>
      (.BadRequest "Missing required fields (adName, performerEmail, adDetails)", st)

/-- A `PUT /ads/{adId}` body, modelled over the ad's own fields; a missing
field is not touched by `$set`. -/
structure AdUpdate where
  name : Option String
  adDetails : Option AdDetails
  deriving DecidableEq, Repr

/-- HTTP-level outcome of `PUT /ads/{adId}`. -/
inductive UpdateAdResult where
  | Ok
  | NotFound
  deriving DecidableEq, Repr

/-- The `$set` document `update_ad` builds: the supplied fields plus an
always-refreshed `updatedAt`; no validation is applied. -/
def set_ad_fields (a : AdDoc) (u : AdUpdate) (now : String) : AdDoc :=
  { a with
      name := u.name.getD a.name
      adDetails := u.adDetails.getD a.adDetails
      updatedAt := now }

/-- Entrypoint `update_ad` (`PUT /ads/{adId}`): `update_one({'_id': ad_id}, {'$set':
update_data})`, 404 when nothing matched. -/
def update_ad (ads : List AdDoc) (adId : String) (u : AdUpdate)
    (now : String) : UpdateAdResult × List AdDoc :=
  match updateFirstBy (fun a => a.id == adId)
      (fun a => set_ad_fields a u now) ads with
  | some ads' => (.Ok, ads')
  | none => (.NotFound, ads)

/-- Claim-side normalization of an event type, as the spec words it:
trimmed and case-insensitive. -/
def validEventType (et : String) : Bool :=
  validEventTypes (pyLower (pyStrip et))

/-- Claim-side predicate: a required field of the event payload is
missing. -/
def claimMissingField (p : EventPayload) : Bool :=
  p.adId.isNone || p.timestamp.isNone || p.eventDetails.isNone ||
  (match p.eventDetails with
   | none => true
   | some ed =>
       ed.packageName.isNone || ed.eventType.isNone || ed.watchDuration.isNone)

/-- Claim-side predicate: the payload carries an event type outside
`{view, click, skip, exit}`. -/
def claimBadType (p : EventPayload) : Bool :=
  match p.eventDetails with
  | none => false
  | some ed =>
      match ed.eventType with
      | none => false
      | some et => !(validEventType et)

/-- Claim-side predicate: the payload carries a negative or non-numeric
watch duration. -/
def claimBadDuration (p : EventPayload) : Bool :=
  match p.eventDetails with
  | none => false
  | some ed =>
      match ed.watchDuration with
      | none => false
      | some .nonNumeric => true
      | some (.num q) => decide (q < 0)

/-- Claim-side predicate: the payload is invalid for one of the reasons the
claim enumerates. -/
def claimInvalid (p : EventPayload) : Bool :=
  claimMissingField p || claimBadType p || claimBadDuration p

/-- Hand-computed per-ad count of events of one type over a list of
`(adId, eventType)` facts. -/
def handCount (evs : List (String × String)) (adId et : String) : Nat :=
  (evs.filter (fun e => e.fst == adId && e.snd == et)).length

/-- Fixture: the shared `adDetails` of the sample ads. -/
def adDetailsFixture : AdDetails := ⟨"http://v", "http://t", "low", 0, 0⟩

/-- Fixture: ad `"A"` of performer `"p1"`. -/
def adFixtureA : AdDoc := ⟨"A", "AdA", some "p1", adDetailsFixture, "t0", "t0"⟩

/-- Fixture: ad `"B"` of the same performer `"p1"`. -/
def adFixtureB : AdDoc := ⟨"B", "AdB", some "p1", adDetailsFixture, "t0", "t0"⟩

/-- Fixture: performer `"p1"` owning ads `"A"` and `"B"`. -/
def performerFixture : PerformerDoc := ⟨"p1", "Perf", "perf@x.com", ["A", "B"]⟩

/-- Fixture: a store with two ads of one performer and no events yet. -/
def stFixture : ServerState :=
  ⟨[adFixtureA, adFixtureB], [performerFixture], [], []⟩

/-- Fixture: a valid view event for the given ad. -/
def viewPayload (adId : String) : EventPayload :=
  ⟨some adId, some "ts", some ⟨some "pkg", some "view", some (.num 0)⟩⟩

/-- Fixture: an event with the out-of-enum type `"bounce"`. -/
def bouncePayload : EventPayload :=
  ⟨some "A", some "ts", some ⟨some "pkg", some "bounce", some (.num 1)⟩⟩

/-- Fixture: a partial update writing an out-of-enum budget. -/
def badBudgetUpdate : AdUpdate :=
  ⟨none, some ⟨"http://v", "http://t", "banana", 0, 0⟩⟩

/-- Fixture: a well-formed ad-creation request for the fixture performer. -/
def goodCreateReq : AdCreateReq :=
  ⟨some "My Ad", some "perf@x.com",
   some ⟨some "http://v.example/ad.mp4", some "http://t.example/land",
         some "Medium ", some (.num 5), some (.num 30)⟩⟩

theorem round2_zero : round2 0 = 0 := by norm_num [round2]

/-- C2: for every totals input, `calculate_ad_stats` computes
`avgWatchDuration = round2 (watchDurationSum / views)` when `views > 0` and
`0` otherwise, and `clickThroughRate = round2 ((clicks / views) * 100)` when
`views > 0` and `0` otherwise; in particular with zero views both metrics
are exactly 0. -/
theorem calculate_ad_stats_derivation (d : StatsTotals) (b : Option String) :
    (calculate_ad_stats d b).avgWatchDuration =
      (if 0 < d.views then round2 (d.watchDurationSum / d.views) else 0) ∧
    (calculate_ad_stats d b).clickThroughRate =
      (if 0 < d.views then round2 ((d.clicks : ℚ) / d.views * 100) else 0) := by
  unfold calculate_ad_stats
  by_cases h : d.views = 0
  · simp [h, round2_zero]
  · simp [h, Nat.pos_of_ne_zero h]

/-- C3 counterexample: on totals `{views := 100, clicks := 10,
watchDurationSum := 2500}` with budget `"medium"`, the code returns
`conversionRate = 500.0`, not the claimed `5.0`. -/
theorem calculate_ad_stats_example_conversion_not_five :
    (calculate_ad_stats ⟨100, 10, 0, 0, 2500⟩ (some "medium")).conversionRate
      ≠ some 5 := by
  have hb : budgetWeight "medium" = 2 := by decide
  simp only [calculate_ad_stats, pyTruthy, Option.getD, hb]
  norm_num [round2]

/-- C3 (amended): on totals `{views := 100, clicks := 10,
watchDurationSum := 2500}` with budget `"medium"`, `calculate_ad_stats`
returns `avgWatchDuration = 25.0`, `clickThroughRate = 10.0` and
`conversionRate = 500.0` (`10 / 2 * 100`). -/
theorem calculate_ad_stats_example_eval :
    calculate_ad_stats ⟨100, 10, 0, 0, 2500⟩ (some "medium") =
      ⟨100, 10, 0, 25, 10, some 500⟩ := by
  have hb : budgetWeight "medium" = 2 := by decide
  simp only [calculate_ad_stats, pyTruthy, Option.getD, hb]
  norm_num [round2]
  intro h
  exact absurd h (by decide)

/-- C4 counterexample: a supplied but blank budget tier (`""`) yields a
result with no `conversionRate` at all, whereas the claim says it would be
present (with weight 1, i.e. `some 100` on these totals). -/
theorem calculate_ad_stats_blank_budget_no_conversion :
    (calculate_ad_stats ⟨1, 1, 0, 0, 0⟩ (some "")).conversionRate = none := by
  simp [calculate_ad_stats, pyTruthy]

/-- C4 (amended): whenever a non-empty budget string is supplied, the result
contains `conversionRate = round2 ((clicks / weight) * 100)` if `views > 0`
and `0` otherwise, the weight being 1 for "low", 2 for "medium", 3 for
"high" and 1 for anything else after trimming and lower-casing; an empty or
absent budget yields no `conversionRate` field. -/
theorem calculate_ad_stats_conversion_amended (d : StatsTotals) (b : String)
    (h : b ≠ "") :
    (calculate_ad_stats d (some b)).conversionRate =
      some (if 0 < d.views then
              round2 ((d.clicks : ℚ) / (budgetWeight b) * 100)
            else 0) := by
  unfold calculate_ad_stats pyTruthy
  by_cases hv : d.views = 0
  · simp [h, hv, round2_zero]
  · simp [h, hv, Nat.pos_of_ne_zero hv]

theorem calculate_ad_stats_conversion_amended_witness :
    (calculate_ad_stats ⟨100, 10, 0, 0, 2500⟩
        (some " MEDIUM ")).conversionRate =
      some (if 0 < (100 : Nat) then
              round2 ((10 : ℚ) / (budgetWeight " MEDIUM ") * 100)
            else 0) :=
  calculate_ad_stats_conversion_amended ⟨100, 10, 0, 0, 2500⟩ " MEDIUM "
    (by decide)

/-- C6: the date filter built by `apply_date_filter` selects exactly the
documents whose date lies in the inclusive range `[from, to]` under
lexicographic string comparison, a missing (absent or blank) bound leaving
that side unbounded (and no date constraint when both are missing), while
the exact key fields of the match must equal the document's. -/
theorem apply_date_filter_selects (a p f t : Option String)
    (d : DailyStatsDoc) :
    docMatches (apply_date_filter ⟨a, p, none⟩ f t) d =
      ((match a with | none => true | some x => d.adId == x) &&
       (match p with | none => true | some x => d.performerId == x) &&
       dateInRange f t d.date) := by
  rcases f with _ | s₁ <;> rcases t with _ | s₂
  · simp [apply_date_filter, docMatches, dateInRange, pyTruthy]
  · have hb : (s₂ == "") = (decide (s₂ = "")) := by
      simp [Bool.beq_eq_decide_eq]
    by_cases h : s₂ = "" <;>
      simp [apply_date_filter, docMatches, dateInRange, pyTruthy, h, hb]
  · have hb : (s₁ == "") = (decide (s₁ = "")) := by
      simp [Bool.beq_eq_decide_eq]
    by_cases h : s₁ = "" <;>
      simp [apply_date_filter, docMatches, dateInRange, pyTruthy, h, hb]
  · have hb₁ : (s₁ == "") = (decide (s₁ = "")) := by
      simp [Bool.beq_eq_decide_eq]
    have hb₂ : (s₂ == "") = (decide (s₂ = "")) := by
      simp [Bool.beq_eq_decide_eq]
    by_cases h₁ : s₁ = "" <;> by_cases h₂ : s₂ = "" <;>
      simp [apply_date_filter, docMatches, dateInRange, pyTruthy, h₁, h₂,
        hb₁, hb₂]

theorem validateEvent_ok_claimInvalid_false (p : EventPayload)
    (v : ValidatedEvent) (hv : validateEvent p = .ok v) :
    claimInvalid p = false := by
  rcases p with ⟨_ | a, _ | ts, _ | ⟨_ | pn, _ | et, _ | (q | _)⟩⟩ <;>
    simp only [validateEvent] at hv <;> try simp at hv
  all_goals repeat' split at hv
  all_goals try cases hv
  all_goals
    simp_all [claimInvalid, claimMissingField, claimBadType, claimBadDuration,
      validEventType]

/-- C5: ingestion fails fast with no partial writes.  Any validation error
is reported as a 400 with the whole state unchanged; every invalid payload
in the claim's sense (missing required field, event type outside the enum,
negative or non-numeric watch duration) is a validation error; and a valid
payload naming a non-existent ad id yields 404 with the state unchanged. -/
theorem send_ad_event_fail_fast (st : ServerState) (p : EventPayload)
    (today now : String) :
    (∀ m, validateEvent p = .error m →
        send_ad_event st p today now = (.BadRequest m, st)) ∧
    (claimInvalid p = true → ∃ m, validateEvent p = .error m) ∧
    (∀ v, validateEvent p = .ok v → find_one_ad st.ads v.adId = none →
        send_ad_event st p today now = (.NotFound, st)) := by
  refine ⟨fun m hm => ?_, fun hI => ?_, fun v hv hfind => ?_⟩
  · unfold send_ad_event
    rw [hm]
  · cases hv : validateEvent p with
    | error m => exact ⟨m, rfl⟩
    | ok v =>
        rw [validateEvent_ok_claimInvalid_false p v hv] at hI
        cases hI
  · simp [send_ad_event, hv, hfind]

theorem send_ad_event_fail_fast_witness :
    send_ad_event stFixture bouncePayload "2024-01-01" "t1" =
      (.BadRequest "Invalid eventType", stFixture) :=
  (send_ad_event_fail_fast stFixture bouncePayload "2024-01-01" "t1").1
    "Invalid eventType" rfl

theorem updateFirstBy_isSome_eq {α : Type} (p : α → Bool) (f : α → α) :
    ∀ l : List α, (updateFirstBy p f l).isSome = (l.find? p).isSome := by
  intro l
  induction l with
  | nil => rfl
  | cons a as ih =>
      by_cases h : p a <;> simp [updateFirstBy, List.find?, h, ih]

theorem updateFirstBy_map_frame {α β : Type} (p : α → Bool) (f : α → α)
    (g : α → β) (hg : ∀ a, p a = true → g (f a) = g a) :
    ∀ l l', updateFirstBy p f l = some l' → l'.map g = l.map g := by
  intro l
  induction l with
  | nil => intro l' h; cases h
  | cons a as ih =>
      intro l' h
      by_cases hp : p a
      · simp only [updateFirstBy, hp, if_pos, Option.some.injEq] at h
        subst h
        simp [hg a hp]
      · simp only [updateFirstBy, hp, if_neg, Bool.false_eq_true,
          not_false_iff] at h
        cases hu : updateFirstBy p f as with
        | none => rw [hu] at h; cases h
        | some l'' =>
            rw [hu] at h
            simp only [Option.map_some', Option.some.injEq] at h
            subst h
            simp [ih l'' hu]

theorem incStatsDoc_frame (d : DailyStatsDoc) (et : String) (wd : ℚ) :
    ((incStatsDoc d et wd).performerId, (incStatsDoc d et wd).date,
     (incStatsDoc d et wd).adId, (incStatsDoc d et wd).createdAt) =
      (d.performerId, d.date, d.adId, d.createdAt) := by
  unfold incStatsDoc incCounts
  split_ifs <;> rfl

/-- C10: the daily-counter write is keyed by `(performerId, date)` only;
when a counter document for that key already exists, an increment — for any
ad id — changes only the counts and the watch-duration sum, leaving every
document's `performerId`, `date`, `adId` and `createdAt` unchanged; when no
document exists, one is created from the event's ad id and the server
timestamp with counters started from zero. -/
theorem incDailyStats_frame (stats : List DailyStatsDoc)
    (pid date adId et : String) (wd : ℚ) (now : String) :
    ((stats.find? (statsKeyMatch pid date)).isSome = true →
      (incDailyStats stats pid date adId et wd now).map
          (fun d => (d.performerId, d.date, d.adId, d.createdAt)) =
        stats.map (fun d => (d.performerId, d.date, d.adId, d.createdAt))) ∧
    (stats.find? (statsKeyMatch pid date) = none →
      incDailyStats stats pid date adId et wd now =
        stats ++ [incStatsDoc ⟨pid, date, adId, 0, 0, 0, 0, 0, now⟩ et wd]) := by
  constructor
  · intro h
    unfold incDailyStats
    cases hu : updateFirstBy (statsKeyMatch pid date)
        (fun d => incStatsDoc d et wd) stats with
    | none =>
        have hs := updateFirstBy_isSome_eq (statsKeyMatch pid date)
          (fun d => incStatsDoc d et wd) stats
        rw [hu, h] at hs
        cases hs
    | some l =>
        exact updateFirstBy_map_frame _ _ _
          (fun a _ => incStatsDoc_frame a et wd) stats l hu
  · intro h
    unfold incDailyStats
    cases hu : updateFirstBy (statsKeyMatch pid date)
        (fun d => incStatsDoc d et wd) stats with
    | none => rfl
    | some l =>
        have hs := updateFirstBy_isSome_eq (statsKeyMatch pid date)
          (fun d => incStatsDoc d et wd) stats
        rw [hu, h] at hs
        cases hs

theorem incDailyStats_frame_witness :
    (([⟨"p1", "2024-01-01", "A", 1, 0, 0, 0, 0, "t0"⟩] :
        List DailyStatsDoc).find?
          (statsKeyMatch "p1" "2024-01-01")).isSome = true ∧
    (incDailyStats [⟨"p1", "2024-01-01", "A", 1, 0, 0, 0, 0, "t0"⟩]
        "p1" "2024-01-01" "B" "click" 0 "t9").map
        (fun d => (d.performerId, d.date, d.adId, d.createdAt)) =
      ([⟨"p1", "2024-01-01", "A", 1, 0, 0, 0, 0, "t0"⟩] :
        List DailyStatsDoc).map
        (fun d => (d.performerId, d.date, d.adId, d.createdAt)) :=
  ⟨by decide,
   (incDailyStats_frame [⟨"p1", "2024-01-01", "A", 1, 0, 0, 0, 0, "t0"⟩]
      "p1" "2024-01-01" "B" "click" 0 "t9").1 (by decide)⟩

/-- C1 (code bug): the write path keys daily counters by
`(performerId, date)` only, while the read path matches by `adId`; with two
ads of one performer receiving one view each on the same day, both events
land in the single counter document stamped with ad `"A"`, so the read path
reports 2 views for `"A"` and 0 for `"B"`, where the hand-computed sums are
1 and 1. -/
theorem send_ad_event_stats_key_mismatch :
    (send_ad_event stFixture (viewPayload "A") "2024-01-01" "t1").fst
        = .Created ∧
    (send_ad_event
        (send_ad_event stFixture (viewPayload "A") "2024-01-01" "t1").snd
        (viewPayload "B") "2024-01-01" "t2").fst = .Created ∧
    handCount [("A", "view"), ("B", "view")] "A" "view" = 1 ∧
    handCount [("A", "view"), ("B", "view")] "B" "view" = 1 ∧
    (ad_totals
        (send_ad_event
          (send_ad_event stFixture (viewPayload "A") "2024-01-01" "t1").snd
          (viewPayload "B") "2024-01-01" "t2").snd.dailyStats
        "A" none none).views = 2 ∧
    (ad_totals
        (send_ad_event
          (send_ad_event stFixture (viewPayload "A") "2024-01-01" "t1").snd
          (viewPayload "B") "2024-01-01" "t2").snd.dailyStats
        "B" none none).views = 0 := by
  decide

/-- C7: `get_ad_statistics` fails `NotFound` exactly when no ad with the
requested id exists; when the ad exists but no counter row matches the
criteria, it returns the stats derived from all-zero totals — every count
and derived metric 0, and `conversionRate`, when present, equal to 0. -/
theorem get_ad_statistics_spec (st : ServerState) (adId : String)
    (dateFrom dateTo : Option String) :
    (get_ad_statistics st adId dateFrom dateTo = .NotFound ↔
      find_one_ad st.ads adId = none) ∧
    (∀ ad, find_one_ad st.ads adId = some ad →
      st.dailyStats.filter
          (fun d => docMatches
            (apply_date_filter ⟨some adId, none, none⟩ dateFrom dateTo) d)
          = [] →
      get_ad_statistics st adId dateFrom dateTo =
          .Ok (calculate_ad_stats ⟨0, 0, 0, 0, 0⟩
                (some ad.adDetails.budget)) ∧
        (calculate_ad_stats ⟨0, 0, 0, 0, 0⟩
            (some ad.adDetails.budget)).views = 0 ∧
        (calculate_ad_stats ⟨0, 0, 0, 0, 0⟩
            (some ad.adDetails.budget)).clicks = 0 ∧
        (calculate_ad_stats ⟨0, 0, 0, 0, 0⟩
            (some ad.adDetails.budget)).skips = 0 ∧
        (calculate_ad_stats ⟨0, 0, 0, 0, 0⟩
            (some ad.adDetails.budget)).avgWatchDuration = 0 ∧
        (calculate_ad_stats ⟨0, 0, 0, 0, 0⟩
            (some ad.adDetails.budget)).clickThroughRate = 0 ∧
        ((calculate_ad_stats ⟨0, 0, 0, 0, 0⟩
            (some ad.adDetails.budget)).conversionRate = none ∨
         (calculate_ad_stats ⟨0, 0, 0, 0, 0⟩
            (some ad.adDetails.budget)).conversionRate = some 0)) := by
  constructor
  · cases hfind : find_one_ad st.ads adId with
    | none => simp [get_ad_statistics, hfind]
    | some ad => simp [get_ad_statistics, hfind]
  · intro ad hfind hrows
    have hz : calculate_ad_stats ⟨0, 0, 0, 0, 0⟩ (some ad.adDetails.budget) =
        calculate_ad_stats
          (ad_totals st.dailyStats adId dateFrom dateTo)
          (some ad.adDetails.budget) := by
      unfold ad_totals
      rw [hrows]
      rfl
    refine ⟨?_, rfl, rfl, rfl, ?_, ?_, ?_⟩
    · rw [hz]
      simp [get_ad_statistics, hfind]
    · simp [calculate_ad_stats, round2_zero]
    · simp [calculate_ad_stats, round2_zero]
    · by_cases hb : pyTruthy (some ad.adDetails.budget) = true
      · right
        simp [calculate_ad_stats, hb, round2_zero]
      · left
        simp [calculate_ad_stats, hb]

theorem get_ad_statistics_spec_witness :
    get_ad_statistics stFixture "A" none none =
      .Ok (calculate_ad_stats ⟨0, 0, 0, 0, 0⟩
            (some adFixtureA.adDetails.budget)) :=
  ((get_ad_statistics_spec stFixture "A" none none).2 adFixtureA
    (by decide) rfl).1

/-- C8 counterexample: starting from a store holding one valid ad, the
partial-update endpoint accepts a payload whose budget is `"banana"`; the
update succeeds and the stored ad afterwards violates the budget-tier
invariant, so the invariant is not preserved by every operation. -/
theorem update_ad_breaks_budget_invariant :
    (update_ad [adFixtureA] "A" badBudgetUpdate "t9").fst = .Ok ∧
    ∃ a, a ∈ (update_ad [adFixtureA] "A" badBudgetUpdate "t9").snd ∧
      validBudget a.adDetails.budget = false := by
  refine ⟨rfl, ⟨set_ad_fields adFixtureA badBudgetUpdate "t9", ?_, rfl⟩⟩
  decide

/-- C8 (amended): the budget-tier and URL invariant is established at ad
creation — every ad `create_ad` stores has a budget in `{low, medium,
high}` and video/target URLs starting with `"http"` — but it is not
preserved by the partial-update operation, which applies the supplied
fields without validation. -/
theorem create_ad_establishes_invariant (st : ServerState)
    (req : AdCreateReq) (newId now aid : String) (st' : ServerState)
    (h : create_ad st req newId now = (.Created aid, st')) :
    ∃ ad, st'.ads = st.ads ++ [ad] ∧
      validBudget ad.adDetails.budget = true ∧
      startsWithHttp ad.adDetails.videoUrl = true ∧
      startsWithHttp ad.adDetails.targetUrl = true := by
  rcases req with ⟨oa, oe, od⟩
  rcases oa with _ | adName <;> rcases oe with _ | pEmail <;>
    rcases od with _ | det <;>
    simp only [create_ad] at h <;> try cases h
  cases hp : find_performer_by_email st.performers (pyStrip pEmail) with
  | none => simp only [hp] at h; cases h
  | some performer =>
    simp only [hp] at h
    rcases det with ⟨ovu, otu, obu, osk, oex⟩
    rcases ovu with _ | vu <;> rcases otu with _ | tu <;>
      rcases obu with _ | bu <;> rcases osk with _ | sk <;>
      rcases oex with _ | ex <;>
      simp only [] at h <;> try cases h
    rcases sk with skq | _ <;> rcases ex with exq | _ <;>
      simp only [] at h <;> try cases h
    by_cases hu :
        (!(startsWithHttp (pyStrip vu)) || !(startsWithHttp (pyStrip tu)))
          = true
    · rw [if_pos hu] at h; cases h
    · rw [if_neg hu] at h
      by_cases hb : (!(validBudget (pyLower (pyStrip bu)))) = true
      · rw [if_pos hb] at h; cases h
      · rw [if_neg hb] at h
        simp only [Prod.mk.injEq, CreateAdResult.Created.injEq] at h
        obtain ⟨h1, h2⟩ := h
        subst h2
        have hts : startsWithHttp (pyStrip vu) = true ∧
            startsWithHttp (pyStrip tu) = true := by simpa using hu
        refine ⟨_, rfl, ?_, ?_, ?_⟩
        · simpa using hb
        · simpa using hts.1
        · simpa using hts.2

theorem create_ad_establishes_invariant_witness :
    ∃ ad, (create_ad stFixture goodCreateReq "N1" "t5").snd.ads =
        stFixture.ads ++ [ad] ∧
      validBudget ad.adDetails.budget = true ∧
      startsWithHttp ad.adDetails.videoUrl = true ∧
      startsWithHttp ad.adDetails.targetUrl = true :=
  create_ad_establishes_invariant stFixture goodCreateReq "N1" "t5" "N1"
    (create_ad stFixture goodCreateReq "N1" "t5").snd (by decide)

end AdServer
